import Mathlib

/-!
# Verification of the `introspection` reflection core

A shallow embedding of the C++ compile-time reflection layer
(`src/include/introspection/*`, `src/template/introspection.h`) and of the
scripting binding generators' helper routines
(`src/examples/scripting/js`, `src/examples/scripting/nodejs`,
`src/include/introspection/pyBindGenerator.h`), together with theorems
settling the specification's claims about them.

Modelling conventions:
* `std::any` becomes `DynValue`, a tagged value over the closed set of
  concrete C++ types that occur in the repository; `std::any_cast<T>`
  becomes `anyCast`, which succeeds exactly when the stored tag equals the
  requested one (mirroring the `typeid` equality test `std::any` performs).
* Mutating member functions become explicit state passing:
  a C++ `void(C::*)(P1,P2)` is modelled as `C → payload p1 → payload p2 → C × _`.
* Thrown C++ exceptions become `Except` errors (`IntroErr` below);
  an out-of-bounds `std::vector::operator[]` access — which is undefined
  behavior in C++, not an exception — is modelled as the distinguished
  outcome `IntroErr.outOfBounds` so that it stays observable in theorems.
* `double`/`float` payloads are modelled as rationals: the reflection core
  never performs arithmetic on them, it only stores, tag-checks and copies.
-/

namespace Introspection

/-- The concrete C++ types appearing in the repository's registrations and
converter tables. -/
inductive CppType where
  | tInt
  | tDouble
  | tFloat
  | tBool
  | tString
  | tVoid
  | tVecInt
  | tVecDouble
  | tVecString
  deriving DecidableEq, Repr

/-- The Lean carrier of each C++ type.  `tVoid` carries `Empty`: a
`std::any` can never hold a value of type `void`. -/
def payload : CppType → Type
  | .tInt => Int
  | .tDouble => Rat
  | .tFloat => Rat
  | .tBool => Bool
  | .tString => String
  | .tVoid => Empty
  | .tVecInt => List Int
  | .tVecDouble => List Rat
  | .tVecString => List String

/-- Mirror of `getTypeName<T>()` (src/include/introspection/inline/types.hxx,
lines 1-74): the explicit specializations for the primitive categories, and
the `typeid(T).name()` fallback for everything else (here: the vector
instantiations, whose tags are the Itanium-mangled names `typeid` yields
under gcc/clang — the repository never registers readable tags for them). -/
def getTypeName : CppType → String
  | .tInt => "int"
  | .tDouble => "double"
  | .tFloat => "float"
  | .tBool => "bool"
  | .tString => "string"
  | .tVoid => "void"
  | .tVecInt => "St6vectorIiSaIiEE"
  | .tVecDouble => "St6vectorIdSaIdEE"
  | .tVecString => "St6vectorINSt7__cxx1112basic_stringIcEESaIS1_EE"

/-- `std::any`: empty, or holding one value of one concrete type. -/
inductive DynValue where
  | empty : DynValue
  | val : (t : CppType) → payload t → DynValue

/-- A `std::any` holding an `int`. -/
def DynValue.int (i : Int) : DynValue := .val .tInt i

/-- A `std::any` holding a `double`. -/
def DynValue.double (q : Rat) : DynValue := .val .tDouble q

/-- A `std::any` holding a `bool`. -/
def DynValue.bool (b : Bool) : DynValue := .val .tBool b

/-- A `std::any` holding a `std::string`. -/
def DynValue.str (s : String) : DynValue := .val .tString s

/-- Errors raised by the reflection core.  `notFound` models the
`std::runtime_error` thrown by the name-lookup entry points (with its
exact message); `badAnyCast` models `std::bad_any_cast`; `outOfBounds`
marks the undefined behavior of an out-of-range `std::vector::operator[]`
inside a synthesized invoker. -/
inductive IntroErr where
  | notFound (msg : String)
  | badAnyCast
  | outOfBounds
  deriving DecidableEq, Repr

/-- `std::any_cast<T>(const std::any &)` without the throw: succeeds iff
the stored concrete type is exactly `t` (no numeric coercion — `std::any`
compares `typeid`s). -/
def anyCast (t : CppType) : DynValue → Option (payload t)
  | .empty => none
  | .val t' p => if h : t' = t then some (h ▸ p) else none

/-- The throwing form of `std::any_cast`, as used by the synthesized
setters and invokers: a mismatch raises `std::bad_any_cast`. -/
def anyCastE (t : CppType) (v : DynValue) : Except IntroErr (payload t) :=
  match anyCast t v with
  | some x => .ok x
  | none => .error .badAnyCast

/-- Mirror of class `MemberInfo` (src/include/introspection/info.h, lines
10-21): name, type tag, getter and setter closures.  The C++ setter
mutates the receiver through a `void *`; here it returns the new receiver
state, or the error the `std::any_cast` inside it threw. -/
structure MemberInfo (C : Type) where
  name : String
  type_name : String
  getter : C → DynValue
  setter : C → DynValue → Except IntroErr C

/-- Mirror of class `MethodInfo` (src/include/introspection/info.h, lines
24-35).  The invoker receives the receiver and the argument vector and
yields the mutated receiver paired with the returned `std::any`. -/
structure MethodInfo (C : Type) where
  name : String
  return_type : String
  parameter_types : List String
  invoker : C → List DynValue → Except IntroErr (C × DynValue)

/-- `std::unordered_map::operator[]` assignment: insert, or overwrite the
existing entry with the same key. -/
def mapInsert {α : Type _} (k : String) (v : α) :
    List (String × α) → List (String × α)
  | [] => [(k, v)]
  | (k', v') :: rest =>
      if k' = k then (k, v) :: rest else (k', v') :: mapInsert k v rest

/-- `std::unordered_map::find`. -/
def mapFind {α : Type _} (k : String) : List (String × α) → Option α
  | [] => none
  | (k', v) :: rest => if k' = k then some v else mapFind k rest

/-- Mirror of class `TypeInfo` (src/template/introspection.h, lines
163-204): the per-class catalogue, two name-keyed maps. -/
structure TypeInfo (C : Type) where
  class_name : String
  members : List (String × MemberInfo C) := []
  methods : List (String × MethodInfo C) := []

/-- `TypeInfo::addMember` (line 171): `members[member->name] = move(member)`. -/
def TypeInfo.addMember {C : Type} (ti : TypeInfo C) (m : MemberInfo C) :
    TypeInfo C :=
  { ti with members := mapInsert m.name m ti.members }

/-- `TypeInfo::addMethod` (line 175): `methods[method->name] = move(method)`. -/
def TypeInfo.addMethod {C : Type} (ti : TypeInfo C) (m : MethodInfo C) :
    TypeInfo C :=
  { ti with methods := mapInsert m.name m ti.methods }

/-- `TypeInfo::getMember` (line 179). -/
def TypeInfo.getMember {C : Type} (ti : TypeInfo C) (name : String) :
    Option (MemberInfo C) :=
  mapFind name ti.members

/-- `TypeInfo::getMethod` (line 184). -/
def TypeInfo.getMethod {C : Type} (ti : TypeInfo C) (name : String) :
    Option (MethodInfo C) :=
  mapFind name ti.methods

/-- `TypeInfo::getMemberNames` (line 189): the map's keys. -/
def TypeInfo.getMemberNames {C : Type} (ti : TypeInfo C) : List String :=
  ti.members.map Prod.fst

/-- `TypeInfo::getMethodNames` (line 197). -/
def TypeInfo.getMethodNames {C : Type} (ti : TypeInfo C) : List String :=
  ti.methods.map Prod.fst

/-- `Introspectable::getMemberValue` (src/template/introspection.h, lines
24-31): lookup, then run the getter; absent name throws a
`std::runtime_error` with this exact message. -/
def getMemberValue {C : Type} (ti : TypeInfo C) (obj : C) (name : String) :
    Except IntroErr DynValue :=
  match ti.getMember name with
  | some m => .ok (m.getter obj)
  | none => .error (.notFound ("Member '" ++ name ++ "' not found"))

/-- `Introspectable::setMemberValue` (lines 33-41). -/
def setMemberValue {C : Type} (ti : TypeInfo C) (obj : C) (name : String)
    (value : DynValue) : Except IntroErr C :=
  match ti.getMember name with
  | some m => m.setter obj value
  | none => .error (.notFound ("Member '" ++ name ++ "' not found"))

/-- `Introspectable::callMethod` (lines 43-51): lookup, then run the
invoker on the argument vector as given — no validation of its own. -/
def callMethod {C : Type} (ti : TypeInfo C) (obj : C) (name : String)
    (args : List DynValue) : Except IntroErr (C × DynValue) :=
  match ti.getMethod name with
  | some m => m.invoker obj args
  | none => .error (.notFound ("Method '" ++ name ++ "' not found"))

/-- `Introspectable::hasMember` (lines 65-67). -/
def hasMember {C : Type} (ti : TypeInfo C) (name : String) : Bool :=
  (ti.getMember name).isSome

/-- `Introspectable::hasMethod` (lines 69-71). -/
def hasMethod {C : Type} (ti : TypeInfo C) (name : String) : Bool :=
  (ti.getMethod name).isSome

/-! ## Registration synthesis (`TypeRegistrar`)

Mirrors of the closure-synthesizing registration calls in
`src/include/introspection/inline/types.hxx` (identical copies live in
`src/template/introspection.h`).  A C++ pointer-to-data-member is a lens
on the receiver; a pointer-to-member-function of arity `n` is a state
transformer taking `n` typed arguments. -/

/-- A pointer-to-data-member `M C::*`: reading and writing one field. -/
structure MemberPtr (C : Type) (t : CppType) where
  get : C → payload t
  set : C → payload t → C

/-- The carrier of a method's return value: C++ `void` returns nothing. -/
def retPayload : CppType → Type
  | .tVoid => PUnit
  | .tInt => Int
  | .tDouble => Rat
  | .tFloat => Rat
  | .tBool => Bool
  | .tString => String
  | .tVecInt => List Int
  | .tVecDouble => List Rat
  | .tVecString => List String

/-- The `if constexpr (std::is_void_v<ReturnType>)` branch at the end of
every synthesized invoker: a void method yields the empty `std::any`,
anything else is wrapped. -/
def wrapReturn : (r : CppType) → retPayload r → DynValue
  | .tVoid, _ => .empty
  | .tInt, x => .val .tInt x
  | .tDouble, x => .val .tDouble x
  | .tFloat, x => .val .tFloat x
  | .tBool, x => .val .tBool x
  | .tString, x => .val .tString x
  | .tVecInt, x => .val .tVecInt x
  | .tVecDouble, x => .val .tVecDouble x
  | .tVecString, x => .val .tVecString x

/-- `TypeRegistrar::member` (types.hxx, lines 76-94): synthesizes the
getter (read the field, wrap with the resolved tag) and the setter
(`obj->*ptr = std::any_cast<MemberType>(value)` — the cast throws before
the assignment happens on a wrong-typed value). -/
def synthMember {C : Type} (name : String) (t : CppType) (ptr : MemberPtr C t) :
    MemberInfo C :=
  { name := name
    type_name := getTypeName t
    getter := fun obj => .val t (ptr.get obj)
    setter := fun obj value =>
      match anyCastE t value with
      | .ok x => .ok (ptr.set obj x)
      | .error e => .error e }

/-- Invoker of the 0-parameter overloads (types.hxx, lines 96-142, const
and non-const): the argument vector is ignored entirely (the lambda's
vector parameter is unnamed). -/
def invoker0 {C : Type} (r : CppType) (m : C → C × retPayload r) :
    C → List DynValue → Except IntroErr (C × DynValue) :=
  fun obj _ =>
    let res := m obj
    .ok (res.1, wrapReturn r res.2)

/-- Invoker of the 1-parameter overload (types.hxx, lines 144-167):
`auto param1 = std::any_cast<Param1>(args[0]);` then the call.  There is
no arity check: `args[0]` on a shorter vector is an out-of-bounds access,
and extra arguments are never looked at. -/
def invoker1 {C : Type} (r p1 : CppType) (m : C → payload p1 → C × retPayload r) :
    C → List DynValue → Except IntroErr (C × DynValue) :=
  fun obj args =>
    match args.get? 0 with
    | none => .error .outOfBounds
    | some a0 =>
      match anyCastE p1 a0 with
      | .error e => .error e
      | .ok x1 =>
        let res := m obj x1
        .ok (res.1, wrapReturn r res.2)

/-- Invoker of the 2-parameter overload (types.hxx, lines 169-193):
`args[0]` is read and cast, then `args[1]` is read and cast, then the
member function runs — in that statement order. -/
def invoker2 {C : Type} (r p1 p2 : CppType)
    (m : C → payload p1 → payload p2 → C × retPayload r) :
    C → List DynValue → Except IntroErr (C × DynValue) :=
  fun obj args =>
    match args.get? 0 with
    | none => .error .outOfBounds
    | some a0 =>
      match anyCastE p1 a0 with
      | .error e => .error e
      | .ok x1 =>
        match args.get? 1 with
        | none => .error .outOfBounds
        | some a1 =>
          match anyCastE p2 a1 with
          | .error e => .error e
          | .ok x2 =>
            let res := m obj x1 x2
            .ok (res.1, wrapReturn r res.2)

/-- Invoker of the 3-parameter overload (types.hxx, lines 195-220). -/
def invoker3 {C : Type} (r p1 p2 p3 : CppType)
    (m : C → payload p1 → payload p2 → payload p3 → C × retPayload r) :
    C → List DynValue → Except IntroErr (C × DynValue) :=
  fun obj args =>
    match args.get? 0 with
    | none => .error .outOfBounds
    | some a0 =>
      match anyCastE p1 a0 with
      | .error e => .error e
      | .ok x1 =>
        match args.get? 1 with
        | none => .error .outOfBounds
        | some a1 =>
          match anyCastE p2 a1 with
          | .error e => .error e
          | .ok x2 =>
            match args.get? 2 with
            | none => .error .outOfBounds
            | some a2 =>
              match anyCastE p3 a2 with
              | .error e => .error e
              | .ok x3 =>
                let res := m obj x1 x2 x3
                .ok (res.1, wrapReturn r res.2)

/-- `TypeRegistrar::method`, 0-parameter overloads (types.hxx, lines
96-142): empty parameter-type list, `invoker0`. -/
def synthMethod0 {C : Type} (name : String) (r : CppType)
    (m : C → C × retPayload r) : MethodInfo C :=
  { name := name
    return_type := getTypeName r
    parameter_types := []
    invoker := invoker0 r m }

/-- `TypeRegistrar::method`, 1-parameter overload (types.hxx, lines 144-167). -/
def synthMethod1 {C : Type} (name : String) (r p1 : CppType)
    (m : C → payload p1 → C × retPayload r) : MethodInfo C :=
  { name := name
    return_type := getTypeName r
    parameter_types := [getTypeName p1]
    invoker := invoker1 r p1 m }

/-- `TypeRegistrar::method`, 2-parameter overload (types.hxx, lines 169-193). -/
def synthMethod2 {C : Type} (name : String) (r p1 p2 : CppType)
    (m : C → payload p1 → payload p2 → C × retPayload r) : MethodInfo C :=
  { name := name
    return_type := getTypeName r
    parameter_types := [getTypeName p1, getTypeName p2]
    invoker := invoker2 r p1 p2 m }

/-- `TypeRegistrar::method`, 3-parameter overload (types.hxx, lines 195-220). -/
def synthMethod3 {C : Type} (name : String) (r p1 p2 p3 : CppType)
    (m : C → payload p1 → payload p2 → payload p3 → C × retPayload r) :
    MethodInfo C :=
  { name := name
    return_type := getTypeName r
    parameter_types := [getTypeName p1, getTypeName p2, getTypeName p3]
    invoker := invoker3 r p1 p2 p3 m }

/-! ## Concrete fixtures

`Point` and `Box` are the concrete scenarios of the specification's
testable-properties section (§8); their registrations go through exactly
the synthesis functions above, the way `Person::registerIntrospection`
does in `src/main.cxx`. -/

/-- The spec's `Point{x:int, y:int}` with `move(dx:int, dy:int)`. -/
structure Point where
  x : Int
  y : Int
  deriving DecidableEq, Repr

/-- `&Point::x` as a lens. -/
def Point.xPtr : MemberPtr Point .tInt :=
  { get := fun p => p.x, set := fun p v => { p with x := v } }

/-- `&Point::y` as a lens. -/
def Point.yPtr : MemberPtr Point .tInt :=
  { get := fun p => p.y, set := fun p v => { p with y := v } }

/-- `void Point::move(int dx, int dy)`: shifts both coordinates. -/
def Point.move (p : Point) (dx dy : Int) : Point × PUnit :=
  ({ x := p.x + dx, y := p.y + dy }, ⟨⟩)

/-- The `Point` catalogue, registered through the builder chain
`reg.member("x",...).member("y",...).method("move",...)`. -/
def pointTypeInfo : TypeInfo Point :=
  (((TypeInfo.mk "Point" [] []).addMember
      (synthMember "x" .tInt Point.xPtr)).addMember
      (synthMember "y" .tInt Point.yPtr)).addMethod
      (synthMethod2 "move" .tVoid .tInt .tInt Point.move)

/-- The spec's `Box{label:string}`. -/
structure Box where
  label : String
  deriving DecidableEq, Repr

/-- `&Box::label` as a lens. -/
def Box.labelPtr : MemberPtr Box .tString :=
  { get := fun b => b.label, set := fun b v => { b with label := v } }

/-- The `Box` catalogue. -/
def boxTypeInfo : TypeInfo Box :=
  (TypeInfo.mk "Box" [] []).addMember (synthMember "label" .tString Box.labelPtr)

/-- The example class `Person` of `src/main.cxx`: members `name:string`,
`age:int`, `height:double`. -/
structure Person where
  name : String
  age : Int
  height : Rat
  deriving Repr

/-- `&Person::name`. -/
def Person.namePtr : MemberPtr Person .tString :=
  { get := fun p => p.name, set := fun p v => { p with name := v } }

/-- `&Person::age`. -/
def Person.agePtr : MemberPtr Person .tInt :=
  { get := fun p => p.age, set := fun p v => { p with age := v } }

/-- `&Person::height`. -/
def Person.heightPtr : MemberPtr Person .tDouble :=
  { get := fun p => p.height, set := fun p v => { p with height := v } }

/-- `void Person::introduce()`: prints to stdout; the receiver is untouched. -/
def Person.introduce (p : Person) : Person × PUnit := (p, ⟨⟩)

/-- `std::string Person::getName() const`. -/
def Person.getName (p : Person) : Person × String := (p, p.name)

/-- `void Person::setName(const std::string &)`. -/
def Person.setName (p : Person) (n : String) : Person × PUnit :=
  ({ p with name := n }, ⟨⟩)

/-- `int Person::getAge() const`. -/
def Person.getAge (p : Person) : Person × Int := (p, p.age)

/-- `void Person::setAge(int)`. -/
def Person.setAge (p : Person) (a : Int) : Person × PUnit :=
  ({ p with age := a }, ⟨⟩)

/-- `double Person::getHeight() const`. -/
def Person.getHeight (p : Person) : Person × Rat := (p, p.height)

/-- `void Person::setHeight(double)`. -/
def Person.setHeight (p : Person) (h : Rat) : Person × PUnit :=
  ({ p with height := h }, ⟨⟩)

/-- `void Person::setNameAndAge(const std::string &, int)`. -/
def Person.setNameAndAge (p : Person) (n : String) (a : Int) : Person × PUnit :=
  ({ p with name := n, age := a }, ⟨⟩)

/-- `void Person::setNameAgeAndHeight(const std::string &, int, double)`. -/
def Person.setNameAgeAndHeight (p : Person) (n : String) (a : Int) (h : Rat) :
    Person × PUnit :=
  ({ p with name := n, age := a, height := h }, ⟨⟩)

/-- `std::string Person::getDescription() const`.  The numeric pieces go
through `std::to_string`; their exact digit strings are irrelevant to
every property proved here, so the canonical Lean renderings stand in. -/
def Person.getDescription (p : Person) : Person × String :=
  (p, p.name ++ " (" ++ toString p.age ++ " years, " ++ toString p.height ++ "m)")

/-- `Person::registerIntrospection` (src/main.cxx, lines 139-157): the
exact builder chain. -/
def personTypeInfo : TypeInfo Person :=
  ((((((((((((((TypeInfo.mk "Person" [] []).addMember
    (synthMember "name" .tString Person.namePtr)).addMember
    (synthMember "age" .tInt Person.agePtr)).addMember
    (synthMember "height" .tDouble Person.heightPtr)).addMethod
    (synthMethod0 "introduce" .tVoid Person.introduce)).addMethod
    (synthMethod0 "getName" .tString Person.getName)).addMethod
    (synthMethod1 "setName" .tVoid .tString Person.setName)).addMethod
    (synthMethod0 "getAge" .tInt Person.getAge)).addMethod
    (synthMethod1 "setAge" .tVoid .tInt Person.setAge)).addMethod
    (synthMethod0 "getHeight" .tDouble Person.getHeight)).addMethod
    (synthMethod1 "setHeight" .tVoid .tDouble Person.setHeight)).addMethod
    (synthMethod2 "setNameAndAge" .tVoid .tString .tInt Person.setNameAndAge)).addMethod
    (synthMethod3 "setNameAgeAndHeight" .tVoid .tString .tInt .tDouble
      Person.setNameAgeAndHeight)).addMethod
    (synthMethod0 "getDescription" .tString Person.getDescription))

/-! ## Scripting generator helpers: the getter/setter heuristics

Two different tests exist in the repository.  The Qt/quickjs
`ObjectWrapper` checks that the accessor's suffix names an existing
member; the python and nodejs generators test only the name's prefix. -/

/-- `std::string::starts_with` (C++20), character by character. -/
def strStartsWith (s pre : String) : Bool :=
  pre.data.isPrefixOf s.data

/-- `std::string::substr(n)`: the suffix from character position `n`. -/
def strDrop (s : String) (n : Nat) : String :=
  String.mk (s.data.drop n)

/-- `std::string::length` (all names in the repository are ASCII, so
characters and bytes coincide). -/
def strLength (s : String) : Nat :=
  s.data.length

/-- `potential_member[0] = std::tolower(potential_member[0])` — lowercase
the first character (ASCII, as `std::tolower` in the C locale). -/
def lowerFirst (s : String) : String :=
  match s.data with
  | [] => ""
  | c :: cs => String.mk (c.toLower :: cs)

/-- `ObjectWrapper::IsSimpleGetterSetter`
(src/examples/scripting/js/JavascriptBindingGenerator.hxx, lines 301-342):
for each of the prefixes `get`, `set` (suffix after 3 characters) and `is`
(suffix after 2), lowercase the suffix's first character and report true
only when a member of that name exists in the catalogue. -/
def IsSimpleGetterSetter {C : Type} (method_name : String)
    (type_info : TypeInfo C) : Bool :=
  (strStartsWith method_name "get" && decide (strLength method_name > 3) &&
    (type_info.getMember (lowerFirst (strDrop method_name 3))).isSome)
  || (strStartsWith method_name "set" && decide (strLength method_name > 3) &&
    (type_info.getMember (lowerFirst (strDrop method_name 3))).isSome)
  || (strStartsWith method_name "is" && decide (strLength method_name > 2) &&
    (type_info.getMember (lowerFirst (strDrop method_name 2))).isSome)

/-- `is_getter_setter_method`
(src/include/introspection/pyBindGenerator.h, lines 258-263, and
src/examples/scripting/nodejs/JavascriptBindingGenerator.h, lines
627-630): a pure prefix test, no member lookup at all. -/
def is_getter_setter_method (method_name : String) : Bool :=
  strStartsWith method_name "get" || strStartsWith method_name "set" ||
    strStartsWith method_name "is"

/-- The method names the Qt/quickjs `ObjectWrapper::SetupBindings` exposes
as callable methods (JavascriptBindingGenerator.hxx, lines 44-49): all
registered methods except the recognized accessors. -/
def jsExposedMethods {C : Type} (ti : TypeInfo C) : List String :=
  ti.getMethodNames.filter fun n => !(IsSimpleGetterSetter n ti)

/-- The method names `AutoBindingGenerator::bind_methods` exposes to
python (pyBindGenerator.h, lines 167-177; the nodejs `bind_methods`,
lines 421-428, filters identically): skip null lookups and every name
passing the prefix test. -/
def pyExposedMethods {C : Type} (ti : TypeInfo C) : List String :=
  ti.getMethodNames.filter fun n =>
    (ti.getMethod n).isSome && !(is_getter_setter_method n)

/-! ## Scripting generator helpers: the type converter registry

Mirror of `TypeConverterRegistry`
(src/examples/scripting/js/JavascriptBindingGenerator.cxx).  JavaScript
values and the N-API primitives the converters call are modelled just far
enough to keep every code path distinguishable. -/

/-- JavaScript values as the binding generator manipulates them. -/
inductive JsValue where
  | undefined
  | jsString (s : String)
  | jsNumber (q : Rat)
  | jsBool (b : Bool)
  | jsArray (elems : List JsValue)
  deriving Repr

/-- Generator-layer failures.  `unsupportedType` is the
`std::runtime_error("Unsupported type: " + type_name)` of
`convert_to_cpp`; `badAnyCast` a `std::bad_any_cast` escaping a custom
converter; the remaining constructors are the N-API type errors raised by
`As<...>` value accessors on mis-typed JavaScript values. -/
inductive ConvErr where
  | unsupportedType (type_name : String)
  | badAnyCast
  | numberExpected
  | booleanExpected
  | stringExpected
  | arrayExpected
  deriving DecidableEq, Repr

/-- ECMAScript ToInt32: truncate toward zero, wrap into `[-2^31, 2^31)`. -/
def jsToInt32 (q : Rat) : Int :=
  ((Int.tdiv q.num q.den + 2 ^ 31).emod (2 ^ 32)) - 2 ^ 31

/-- `As<Napi::Number>().Int32Value()`. -/
def napiInt32Value : JsValue → Except ConvErr Int
  | .jsNumber q => .ok (jsToInt32 q)
  | _ => .error .numberExpected

/-- `As<Napi::Number>().DoubleValue()`. -/
def napiDoubleValue : JsValue → Except ConvErr Rat
  | .jsNumber q => .ok q
  | _ => .error .numberExpected

/-- `As<Napi::Boolean>().Value()`. -/
def napiBoolValue : JsValue → Except ConvErr Bool
  | .jsBool b => .ok b
  | _ => .error .booleanExpected

/-- `As<Napi::String>().Utf8Value()`. -/
def napiStringUtf8 : JsValue → Except ConvErr String
  | .jsString s => .ok s
  | _ => .error .stringExpected

/-- The JS engine's ToString coercion (`Napi::Value::ToString`), external
to this repository, modelled canonically: no theorem below depends on the
engine's exact digit formatting. -/
def jsToString : JsValue → String
  | .undefined => "undefined"
  | .jsString s => s
  | .jsBool b => if b then "true" else "false"
  | .jsNumber q => toString q
  | .jsArray es => String.intercalate "," (es.attach.map fun e => jsToString e.1)
termination_by v => sizeOf v
decreasing_by
  cases e with
  | mk x hx =>
    have h := List.sizeOf_lt_of_mem hx
    simp only [JsValue.jsArray.sizeOf_spec]
    omega

/-- `std::any::has_value`. -/
def DynValue.hasValue : DynValue → Bool
  | .empty => false
  | .val _ _ => true

/-- `TypeConverterRegistry` (js/JavascriptBindingGenerator.h): the two
name-keyed converter maps. -/
structure TypeConverterRegistry where
  cpp_to_js_converters : List (String × (DynValue → Except ConvErr JsValue))
  js_to_cpp_converters : List (String × (JsValue → Except ConvErr DynValue))

/-- `TypeConverterRegistry::register_converter`
(js/JavascriptBindingGenerator.cxx, lines 8-13). -/
def TypeConverterRegistry.register_converter (reg : TypeConverterRegistry)
    (type_name : String) (to_js : DynValue → Except ConvErr JsValue)
    (to_cpp : JsValue → Except ConvErr DynValue) : TypeConverterRegistry :=
  { cpp_to_js_converters := mapInsert type_name to_js reg.cpp_to_js_converters
    js_to_cpp_converters := mapInsert type_name to_cpp reg.js_to_cpp_converters }

/-- `TypeConverterRegistry::convert_to_js`
(js/JavascriptBindingGenerator.cxx, lines 15-44): empty value or `void` →
Undefined; custom converter when registered (its exceptions propagate);
then the five built-in primitive conversions, whose `bad_any_cast` is
caught and — like a completely unknown tag — ends in `return
env.Undefined()`, not in an error. -/
def TypeConverterRegistry.convert_to_js (reg : TypeConverterRegistry)
    (value : DynValue) (type_name : String) : Except ConvErr JsValue :=
  if !value.hasValue || type_name = "void" then .ok .undefined
  else
    match mapFind type_name reg.cpp_to_js_converters with
    | some conv => conv value
    | none =>
      if type_name = "string" then
        match anyCast .tString value with
        | some s => .ok (.jsString s)
        | none => .ok .undefined
      else if type_name = "int" then
        match anyCast .tInt value with
        | some i => .ok (.jsNumber (Int.cast i))
        | none => .ok .undefined
      else if type_name = "double" then
        match anyCast .tDouble value with
        | some q => .ok (.jsNumber q)
        | none => .ok .undefined
      else if type_name = "float" then
        match anyCast .tFloat value with
        | some q => .ok (.jsNumber q)
        | none => .ok .undefined
      else if type_name = "bool" then
        match anyCast .tBool value with
        | some b => .ok (.jsBool b)
        | none => .ok .undefined
      else .ok .undefined

/-- `TypeConverterRegistry::convert_to_cpp`
(js/JavascriptBindingGenerator.cxx, lines 46-70): custom converter first,
then the built-in primitive table, otherwise
`throw std::runtime_error("Unsupported type: " + type_name)`. -/
def TypeConverterRegistry.convert_to_cpp (reg : TypeConverterRegistry)
    (js_value : JsValue) (type_name : String) : Except ConvErr DynValue :=
  match mapFind type_name reg.js_to_cpp_converters with
  | some conv => conv js_value
  | none =>
    if type_name = "string" then
      .ok (.str (match js_value with
        | .jsString s => s
        | v => jsToString v))
    else if type_name = "int" then
      match napiInt32Value js_value with
      | .ok i => .ok (.int i)
      | .error e => .error e
    else if type_name = "double" then
      match napiDoubleValue js_value with
      | .ok q => .ok (.double q)
      | .error e => .error e
    else if type_name = "float" then
      match napiDoubleValue js_value with
      | .ok q => .ok (.val .tFloat q)
      | .error e => .error e
    else if type_name = "bool" then
      match napiBoolValue js_value with
      | .ok b => .ok (.bool b)
      | .error e => .error e
    else .error (.unsupportedType type_name)

/-- The `vector<int>` native-to-script converter the registry constructor
installs (js/JavascriptBindingGenerator.cxx, lines 74-82). -/
def vecIntToJs (value : DynValue) : Except ConvErr JsValue :=
  match anyCast .tVecInt value with
  | some xs =>
    let ys : List Int := xs
    .ok (.jsArray (ys.map fun i => .jsNumber (i : Rat)))
  | none => .error .badAnyCast

/-- The `vector<int>` script-to-native converter (lines 83-90). -/
def vecIntToCpp (js_val : JsValue) : Except ConvErr DynValue :=
  match js_val with
  | .jsArray es =>
    match es.mapM napiInt32Value with
    | .ok xs => .ok (.val .tVecInt xs)
    | .error e => .error e
  | _ => .error .arrayExpected

/-- The `vector<double>` native-to-script converter (lines 92-100). -/
def vecDoubleToJs (value : DynValue) : Except ConvErr JsValue :=
  match anyCast .tVecDouble value with
  | some xs =>
    let ys : List Rat := xs
    .ok (.jsArray (ys.map fun q => .jsNumber q))
  | none => .error .badAnyCast

/-- The `vector<double>` script-to-native converter (lines 101-108). -/
def vecDoubleToCpp (js_val : JsValue) : Except ConvErr DynValue :=
  match js_val with
  | .jsArray es =>
    match es.mapM napiDoubleValue with
    | .ok xs => .ok (.val .tVecDouble xs)
    | .error e => .error e
  | _ => .error .arrayExpected

/-- The `vector<string>` native-to-script converter (lines 110-118). -/
def vecStringToJs (value : DynValue) : Except ConvErr JsValue :=
  match anyCast .tVecString value with
  | some xs =>
    let ys : List String := xs
    .ok (.jsArray (ys.map fun s => .jsString s))
  | none => .error .badAnyCast

/-- The `vector<string>` script-to-native converter (lines 119-126). -/
def vecStringToCpp (js_val : JsValue) : Except ConvErr DynValue :=
  match js_val with
  | .jsArray es =>
    match es.mapM napiStringUtf8 with
    | .ok xs => .ok (.val .tVecString xs)
    | .error e => .error e
  | _ => .error .arrayExpected

/-- The process-wide registry `TypeConverterRegistry::instance()` hands
out: default-constructed, so holding exactly the three vector converter
pairs its constructor registers (lines 72-127). -/
def registryInstance : TypeConverterRegistry :=
  ((({ cpp_to_js_converters := [], js_to_cpp_converters := [] } :
      TypeConverterRegistry).register_converter
    "vector<int>" vecIntToJs vecIntToCpp).register_converter
    "vector<double>" vecDoubleToJs vecDoubleToCpp).register_converter
    "vector<string>" vecStringToJs vecStringToCpp

/-- A registration pass over members: the builder chain
`reg.member(n1, p1).member(n2, p2)...` is a sequence of
`TypeInfo::addMember` calls. -/
def registerMembers {C : Type} (ti : TypeInfo C) :
    List (MemberInfo C) → TypeInfo C
  | [] => ti
  | m :: ms => registerMembers (ti.addMember m) ms

/-- A registration pass over methods, likewise. -/
def registerMethods {C : Type} (ti : TypeInfo C) :
    List (MethodInfo C) → TypeInfo C
  | [] => ti
  | f :: fs => registerMethods (ti.addMethod f) fs

/-! ## Shared lemmas -/

/-- After an insert-or-overwrite, looking the key up yields the new value. -/
theorem mapFind_mapInsert_self {α : Type _} (k : String) (v : α)
    (l : List (String × α)) : mapFind k (mapInsert k v l) = some v := by
  induction l with
  | nil => simp [mapInsert, mapFind]
  | cons hd tl ih =>
    obtain ⟨k', v'⟩ := hd
    by_cases h : k' = k
    · simp [mapInsert, mapFind, h]
    · simp [mapInsert, mapFind, h, ih]

/-- Keys after insert-or-overwrite: the new key plus the old keys. -/
theorem mem_keys_mapInsert {α : Type _} (k k' : String) (v : α)
    (l : List (String × α)) :
    k' ∈ (mapInsert k v l).map Prod.fst ↔ k' = k ∨ k' ∈ l.map Prod.fst := by
  induction l with
  | nil => simp [mapInsert]
  | cons hd tl ih =>
    obtain ⟨a, b⟩ := hd
    by_cases h : a = k
    · subst h
      simp [mapInsert]
    · simp [mapInsert, h, ih]
      tauto

/-- Insert-or-overwrite never introduces a duplicate key. -/
theorem nodup_keys_mapInsert {α : Type _} (k : String) (v : α)
    (l : List (String × α)) (h : (l.map Prod.fst).Nodup) :
    ((mapInsert k v l).map Prod.fst).Nodup := by
  induction l with
  | nil => simp [mapInsert]
  | cons hd tl ih =>
    obtain ⟨a, b⟩ := hd
    rw [List.map_cons, List.nodup_cons] at h
    obtain ⟨ha, htl⟩ := h
    by_cases hak : a = k
    · rw [show mapInsert k v ((a, b) :: tl) = (k, v) :: tl by
        simp [mapInsert, hak]]
      rw [List.map_cons, List.nodup_cons]
      exact ⟨by simpa [hak] using ha, htl⟩
    · rw [show mapInsert k v ((a, b) :: tl) = (a, b) :: mapInsert k v tl by
        simp [mapInsert, hak]]
      rw [List.map_cons, List.nodup_cons]
      refine ⟨fun hmem => ?_, ih htl⟩
      rcases (mem_keys_mapInsert k a v tl).1 hmem with h1 | h2
      · exact hak h1
      · exact ha h2

/-- Registering methods does not touch the member map. -/
theorem registerMethods_members {C : Type} (fs : List (MethodInfo C))
    (ti : TypeInfo C) : (registerMethods ti fs).members = ti.members := by
  induction fs generalizing ti with
  | nil => rfl
  | cons f fs ih => simp [registerMethods, ih, TypeInfo.addMethod]

/-- Registering members does not touch the method map. -/
theorem registerMembers_methods {C : Type} (ms : List (MemberInfo C))
    (ti : TypeInfo C) : (registerMembers ti ms).methods = ti.methods := by
  induction ms generalizing ti with
  | nil => rfl
  | cons m ms ih => simp [registerMembers, ih, TypeInfo.addMember]

/-- Membership in the member-name enumeration after a registration pass. -/
theorem mem_registerMembers_names {C : Type} (ms : List (MemberInfo C))
    (ti : TypeInfo C) (n : String) :
    n ∈ (registerMembers ti ms).getMemberNames ↔
      n ∈ ti.getMemberNames ∨ n ∈ ms.map MemberInfo.name := by
  induction ms generalizing ti with
  | nil => simp [registerMembers]
  | cons m ms ih =>
    have step : n ∈ (ti.addMember m).getMemberNames ↔
        n = m.name ∨ n ∈ ti.getMemberNames :=
      mem_keys_mapInsert m.name n m ti.members
    rw [show registerMembers ti (m :: ms) = registerMembers (ti.addMember m) ms
      from rfl, ih, step, List.map_cons, List.mem_cons]
    tauto

/-- The member-name enumeration stays duplicate-free under registration. -/
theorem nodup_registerMembers_names {C : Type} (ms : List (MemberInfo C))
    (ti : TypeInfo C) (h : ti.getMemberNames.Nodup) :
    (registerMembers ti ms).getMemberNames.Nodup := by
  induction ms generalizing ti with
  | nil => exact h
  | cons m ms ih =>
    exact ih _ (nodup_keys_mapInsert m.name m ti.members h)

/-- Membership in the method-name enumeration after a registration pass. -/
theorem mem_registerMethods_names {C : Type} (fs : List (MethodInfo C))
    (ti : TypeInfo C) (n : String) :
    n ∈ (registerMethods ti fs).getMethodNames ↔
      n ∈ ti.getMethodNames ∨ n ∈ fs.map MethodInfo.name := by
  induction fs generalizing ti with
  | nil => simp [registerMethods]
  | cons f fs ih =>
    have step : n ∈ (ti.addMethod f).getMethodNames ↔
        n = f.name ∨ n ∈ ti.getMethodNames :=
      mem_keys_mapInsert f.name n f ti.methods
    rw [show registerMethods ti (f :: fs) = registerMethods (ti.addMethod f) fs
      from rfl, ih, step, List.map_cons, List.mem_cons]
    tauto

/-- The method-name enumeration stays duplicate-free under registration. -/
theorem nodup_registerMethods_names {C : Type} (fs : List (MethodInfo C))
    (ti : TypeInfo C) (h : ti.getMethodNames.Nodup) :
    (registerMethods ti fs).getMethodNames.Nodup := by
  induction fs generalizing ti with
  | nil => exact h
  | cons f fs ih =>
    exact ih _ (nodup_keys_mapInsert f.name f ti.methods h)

/-- Extracting at the stored type succeeds and returns the stored value. -/
theorem anyCast_val_self (t : CppType) (x : payload t) :
    anyCast t (.val t x) = some x := by
  simp [anyCast]

/-- Extracting at a different type than stored fails. -/
theorem anyCast_val_ne {t t' : CppType} (h : t' ≠ t) (p : payload t') :
    anyCast t (.val t' p) = none := by
  simp [anyCast, h]

/-! ## Claims -/

/-- **C1.** The claim: invoking a registered method of declared arity `n`
through the core with an argument list of a different length fails with
ArityMismatch before any extraction, so the method never partially
executes.  The code has no such check anywhere on the core path:
`Introspectable::callMethod` (src/template/introspection.h, lines 43-51)
passes the vector through untouched, and the synthesized invokers
(types.hxx, lines 96-220) read `args[0..n-1]` directly.  Evaluating the
embedding at the failing inputs: the registered 2-parameter `Point::move`
called with three arguments extracts the first two, silently ignores the
third, fully executes and mutates the receiver; a 0-parameter method
called with one argument likewise executes; `move` called with one
argument performs an out-of-bounds `std::vector` access (undefined
behavior), which is not an ArityMismatch failure either. -/
theorem c1_core_performs_no_arity_check :
    callMethod pointTypeInfo ⟨0, 0⟩ "move" [.int 3, .int 4, .int 5]
      = .ok (⟨3, 4⟩, .empty) ∧
    callMethod personTypeInfo ⟨"Alice", 30, 165/100⟩ "introduce" [.int 1]
      = .ok (⟨"Alice", 30, 165/100⟩, .empty) ∧
    callMethod pointTypeInfo ⟨0, 0⟩ "move" [.int 3] = .error .outOfBounds := by
  refine ⟨rfl, rfl, rfl⟩

/-- **C2, counterexample.** The claim says the TypeMismatch failure
identifies the parameter index `i` at which extraction failed.  The
invoker raises `std::bad_any_cast` (types.hxx, lines 180-181), which
carries no index: a call failing at parameter 0 and a call failing at
parameter 1 produce the very same error value, so no information in the
failure identifies the index. -/
theorem c2_counterexample_error_carries_no_index :
    callMethod pointTypeInfo ⟨0, 0⟩ "move" [.bool true, .int 4]
      = .error .badAnyCast ∧
    callMethod pointTypeInfo ⟨0, 0⟩ "move" [.int 3, .bool true]
      = .error .badAnyCast := by
  refine ⟨rfl, rfl⟩

/-- **C2, amended.** For every registered method of every parameterful
arity the source synthesizes (1, 2 and 3 parameters; a 0-parameter
method has no argument to mismatch) and a correct-length argument list,
extraction proceeds left to right and the invocation fails with the
TypeMismatch error (`std::bad_any_cast`, carrying no parameter index) of
the first wrong-typed argument; the underlying member function is never
invoked, so the receiver is unchanged (the error outcome carries no
mutated state). -/
theorem c2_first_mismatch_stops_invocation {C : Type}
    (r1 q1 : CppType) (m1 : C → payload q1 → C × retPayload r1)
    (r2 p1 p2 : CppType) (m2 : C → payload p1 → payload p2 → C × retPayload r2)
    (r3 s1 s2 s3 : CppType)
    (m3 : C → payload s1 → payload s2 → payload s3 → C × retPayload r3)
    (ti : TypeInfo C) (n1 n2 n3 : String)
    (h1 : ti.getMethod n1 = some (synthMethod1 n1 r1 q1 m1))
    (h2 : ti.getMethod n2 = some (synthMethod2 n2 r2 p1 p2 m2))
    (h3 : ti.getMethod n3 = some (synthMethod3 n3 r3 s1 s2 s3 m3))
    (obj : C) (a0 a1 a2 : DynValue) :
    (anyCast q1 a0 = none →
      callMethod ti obj n1 [a0] = .error .badAnyCast) ∧
    (anyCast p1 a0 = none →
      callMethod ti obj n2 [a0, a1] = .error .badAnyCast) ∧
    (∀ x1, anyCast p1 a0 = some x1 → anyCast p2 a1 = none →
      callMethod ti obj n2 [a0, a1] = .error .badAnyCast) ∧
    (anyCast s1 a0 = none →
      callMethod ti obj n3 [a0, a1, a2] = .error .badAnyCast) ∧
    (∀ x1, anyCast s1 a0 = some x1 → anyCast s2 a1 = none →
      callMethod ti obj n3 [a0, a1, a2] = .error .badAnyCast) ∧
    (∀ x1 x2, anyCast s1 a0 = some x1 → anyCast s2 a1 = some x2 →
      anyCast s3 a2 = none →
      callMethod ti obj n3 [a0, a1, a2] = .error .badAnyCast) := by
  refine ⟨?_, ?_, ?_, ?_, ?_, ?_⟩
  · intro g0
    simp [callMethod, h1, synthMethod1, invoker1, anyCastE, g0]
  · intro g0
    simp [callMethod, h2, synthMethod2, invoker2, anyCastE, g0]
  · intro x1 g1 g2
    simp [callMethod, h2, synthMethod2, invoker2, anyCastE, g1, g2]
  · intro g0
    simp [callMethod, h3, synthMethod3, invoker3, anyCastE, g0]
  · intro x1 g1 g2
    simp [callMethod, h3, synthMethod3, invoker3, anyCastE, g1, g2]
  · intro x1 x2 g1 g2 g3
    simp [callMethod, h3, synthMethod3, invoker3, anyCastE, g1, g2, g3]

/-- **C2, witness.**  `Person`'s registered methods of arity 1, 2 and 3
(`setName`, `setNameAndAge`, `setNameAgeAndHeight`), each called with a
wrong-typed argument at a different position. -/
theorem c2_first_mismatch_stops_invocation_witness :
    callMethod personTypeInfo ⟨"Alice", 30, 165/100⟩ "setName" [.int 7]
      = .error .badAnyCast ∧
    callMethod personTypeInfo ⟨"Alice", 30, 165/100⟩ "setNameAndAge"
      [.str "Bob", .bool true] = .error .badAnyCast ∧
    callMethod personTypeInfo ⟨"Alice", 30, 165/100⟩ "setNameAgeAndHeight"
      [.str "Bob", .int 22, .bool true] = .error .badAnyCast :=
  ⟨(c2_first_mismatch_stops_invocation
      .tVoid .tString Person.setName
      .tVoid .tString .tInt Person.setNameAndAge
      .tVoid .tString .tInt .tDouble Person.setNameAgeAndHeight
      personTypeInfo "setName" "setNameAndAge" "setNameAgeAndHeight"
      rfl rfl rfl ⟨"Alice", 30, 165/100⟩ (.int 7) (.bool true)
      (.bool true)).1 rfl,
    (c2_first_mismatch_stops_invocation
      .tVoid .tString Person.setName
      .tVoid .tString .tInt Person.setNameAndAge
      .tVoid .tString .tInt .tDouble Person.setNameAgeAndHeight
      personTypeInfo "setName" "setNameAndAge" "setNameAgeAndHeight"
      rfl rfl rfl ⟨"Alice", 30, 165/100⟩ (.str "Bob") (.bool true)
      (.bool true)).2.2.1 "Bob" rfl rfl,
    (c2_first_mismatch_stops_invocation
      .tVoid .tString Person.setName
      .tVoid .tString .tInt Person.setNameAndAge
      .tVoid .tString .tInt .tDouble Person.setNameAgeAndHeight
      personTypeInfo "setName" "setNameAndAge" "setNameAgeAndHeight"
      rfl rfl rfl ⟨"Alice", 30, 165/100⟩ (.str "Bob") (.int 22)
      (.bool true)).2.2.2.2.2 "Bob" (Int.ofNat 22) rfl rfl rfl⟩

/-- **C3.** Setting a registered member of type `M` from a dynamic value
storing a different type fails with TypeMismatch (`std::bad_any_cast`:
the cast in `typed_obj->*member_ptr = std::any_cast<MemberType>(value)`,
types.hxx lines 88-92, throws before the assignment), and a subsequent
get-by-name on the receiver still returns the pre-call value. -/
theorem c3_setter_mismatch_is_atomic {C : Type} (t : CppType)
    (name : String) (ptr : MemberPtr C t) (ti : TypeInfo C)
    (hm : ti.getMember name = some (synthMember name t ptr))
    (obj : C) (v : DynValue) (hv : anyCast t v = none) :
    setMemberValue ti obj name v = .error .badAnyCast ∧
    getMemberValue ti obj name = .ok (.val t (ptr.get obj)) := by
  constructor
  · simp [setMemberValue, hm, synthMember, anyCastE, hv]
  · simp [getMemberValue, hm, synthMember]

/-- **C3, witness.**  The spec's `Box{label:string}` scenario:
`set("label", 42)` fails and `get("label")` still yields the old label. -/
theorem c3_setter_mismatch_is_atomic_witness :
    setMemberValue boxTypeInfo ⟨"pre"⟩ "label" (.int 42) = .error .badAnyCast ∧
    getMemberValue boxTypeInfo ⟨"pre"⟩ "label" = .ok (.str "pre") :=
  c3_setter_mismatch_is_atomic .tString "label" Box.labelPtr boxTypeInfo rfl
    ⟨"pre"⟩ (.int 42) rfl

/-- **C4.** Round-trip identity: for a registered member whose
pointer-to-member write is read back exactly (true of every C++ data
member), set-by-name with a correctly-tagged value succeeds and a
get-by-name on the resulting receiver returns exactly that value. -/
theorem c4_set_then_get_roundtrip {C : Type} (t : CppType) (name : String)
    (ptr : MemberPtr C t) (hlens : ∀ o x, ptr.get (ptr.set o x) = x)
    (ti : TypeInfo C) (hm : ti.getMember name = some (synthMember name t ptr))
    (obj : C) (x : payload t) :
    setMemberValue ti obj name (.val t x) = .ok (ptr.set obj x) ∧
    getMemberValue ti (ptr.set obj x) name = .ok (.val t x) := by
  constructor
  · simp [setMemberValue, hm, synthMember, anyCastE, anyCast_val_self]
  · simp [getMemberValue, hm, synthMember, hlens]

/-- **C4, witness.**  `Point.x` with `v = 42`. -/
theorem c4_set_then_get_roundtrip_witness :
    setMemberValue pointTypeInfo ⟨1, 2⟩ "x" (.int 42) = .ok ⟨42, 2⟩ ∧
    getMemberValue pointTypeInfo ⟨42, 2⟩ "x" = .ok (.int 42) :=
  c4_set_then_get_roundtrip .tInt "x" Point.xPtr (fun _ _ => rfl)
    pointTypeInfo rfl ⟨1, 2⟩ (Int.ofNat 42)

/-- **C5.** Type-checked extraction (`std::any_cast`, the single funnel
used by the synthesized setters and invokers) at any type other than the
stored one always fails with TypeMismatch, for every pair of distinct
supported types — in particular there is no numeric coercion. -/
theorem c5_extraction_requires_exact_type (t t' : CppType) (h : t' ≠ t)
    (p : payload t') :
    anyCastE t (.val t' p) = .error .badAnyCast := by
  simp [anyCastE, anyCast, h]

/-- **C5, witness.**  Storing `int 1` and extracting `double` fails. -/
theorem c5_extraction_requires_exact_type_witness :
    anyCastE .tDouble (.int 1) = .error .badAnyCast :=
  c5_extraction_requires_exact_type .tDouble .tInt (by decide) (Int.ofNat 1)

/-- A satisfied prefix test: a string starts with each of its prefixes. -/
theorem strStartsWith_of_append (pre suf : String) :
    strStartsWith (pre ++ suf) pre = true := by
  unfold strStartsWith
  rw [String.data_append, List.isPrefixOf_iff_prefix]
  exact List.prefix_append _ _

/-- A key that occurs among a map's keys can be looked up. -/
theorem mapFind_isSome_of_mem_keys {α : Type _} {k : String}
    {l : List (String × α)} (h : k ∈ l.map Prod.fst) :
    (mapFind k l).isSome = true := by
  induction l with
  | nil => simp at h
  | cons hd tl ih =>
    obtain ⟨a, b⟩ := hd
    by_cases hak : a = k
    · simp [mapFind, hak]
    · rw [List.map_cons, List.mem_cons] at h
      rcases h with h1 | h2
      · exact absurd h1.symm hak
      · simp [mapFind, hak, ih h2]

/-- The Qt/quickjs exposure filter, element-wise. -/
theorem mem_jsExposedMethods {C : Type} (ti : TypeInfo C) (n : String) :
    n ∈ jsExposedMethods ti ↔
      n ∈ ti.getMethodNames ∧ IsSimpleGetterSetter n ti = false := by
  simp [jsExposedMethods, List.mem_filter]

/-- The python/nodejs exposure filter, element-wise: the
`getMethod`-is-null guard never fires for an enumerated name, leaving the
prefix test as the only filter. -/
theorem mem_pyExposedMethods {C : Type} (ti : TypeInfo C) (n : String) :
    n ∈ pyExposedMethods ti ↔
      n ∈ ti.getMethodNames ∧ is_getter_setter_method n = false := by
  simp only [pyExposedMethods, List.mem_filter, Bool.and_eq_true,
    Bool.not_eq_true']
  constructor
  · rintro ⟨hmem, _, hpref⟩
    exact ⟨hmem, hpref⟩
  · rintro ⟨hmem, hpref⟩
    exact ⟨hmem, mapFind_isSome_of_mem_keys hmem, hpref⟩

/-- The accessor shape `get<Suffix>` passes the js heuristic exactly when
the member named by the lowercased suffix exists. -/
theorem IsSimpleGetterSetter_get_append {C : Type} (ti : TypeInfo C)
    (suf : String) (h : suf ≠ "") :
    IsSimpleGetterSetter ("get" ++ suf) ti =
      (ti.getMember (lowerFirst suf)).isSome := by
  have hlen : decide (strLength ("get" ++ suf) > 3) = true := by
    unfold strLength
    rw [String.data_append]
    have : suf.data ≠ [] := fun hd => h (String.ext hd)
    cases hsd : suf.data with
    | nil => exact absurd hsd this
    | cons c cs => simp
  have hset : strStartsWith ("get" ++ suf) "set" = false := by
    unfold strStartsWith
    rw [String.data_append]
    rfl
  have his : strStartsWith ("get" ++ suf) "is" = false := by
    unfold strStartsWith
    rw [String.data_append]
    rfl
  have hdrop : strDrop ("get" ++ suf) 3 = suf := by
    unfold strDrop
    rw [String.data_append]
    rfl
  unfold IsSimpleGetterSetter
  rw [strStartsWith_of_append, hset, his, hdrop, hlen]
  simp

/-- The accessor shape `set<Suffix>`, likewise. -/
theorem IsSimpleGetterSetter_set_append {C : Type} (ti : TypeInfo C)
    (suf : String) (h : suf ≠ "") :
    IsSimpleGetterSetter ("set" ++ suf) ti =
      (ti.getMember (lowerFirst suf)).isSome := by
  have hlen : decide (strLength ("set" ++ suf) > 3) = true := by
    unfold strLength
    rw [String.data_append]
    have : suf.data ≠ [] := fun hd => h (String.ext hd)
    cases hsd : suf.data with
    | nil => exact absurd hsd this
    | cons c cs => simp
  have hget : strStartsWith ("set" ++ suf) "get" = false := by
    unfold strStartsWith
    rw [String.data_append]
    rfl
  have his : strStartsWith ("set" ++ suf) "is" = false := by
    unfold strStartsWith
    rw [String.data_append]
    rfl
  have hdrop : strDrop ("set" ++ suf) 3 = suf := by
    unfold strDrop
    rw [String.data_append]
    rfl
  unfold IsSimpleGetterSetter
  rw [strStartsWith_of_append, hget, his, hdrop, hlen]
  simp

/-- The accessor shape `is<Suffix>`, likewise (suffix after 2 characters). -/
theorem IsSimpleGetterSetter_is_append {C : Type} (ti : TypeInfo C)
    (suf : String) (h : suf ≠ "") :
    IsSimpleGetterSetter ("is" ++ suf) ti =
      (ti.getMember (lowerFirst suf)).isSome := by
  have hlen : decide (strLength ("is" ++ suf) > 2) = true := by
    unfold strLength
    rw [String.data_append]
    have : suf.data ≠ [] := fun hd => h (String.ext hd)
    cases hsd : suf.data with
    | nil => exact absurd hsd this
    | cons c cs => simp
  have hget : strStartsWith ("is" ++ suf) "get" = false := by
    unfold strStartsWith
    rw [String.data_append]
    rfl
  have hset : strStartsWith ("is" ++ suf) "set" = false := by
    unfold strStartsWith
    rw [String.data_append]
    rfl
  have hdrop : strDrop ("is" ++ suf) 2 = suf := by
    unfold strDrop
    rw [String.data_append]
    rfl
  unfold IsSimpleGetterSetter
  rw [strStartsWith_of_append, hget, hset, hdrop, hlen]
  simp

/-- **C6, counterexample.** `Person` registers the method
`getDescription` and no member whose name matches the suffix
(`description`); the claim then requires every generator to expose it as
a callable method.  The js `ObjectWrapper` does, but the python/nodejs
generators' prefix-only test excludes it anyway: `getDescription` is
absent from their exposed-method list. -/
theorem c6_counterexample_prefix_only_exclusion :
    (personTypeInfo.getMember "description").isSome = false ∧
    "getDescription" ∈ personTypeInfo.getMethodNames ∧
    is_getter_setter_method "getDescription" = true ∧
    "getDescription" ∉ pyExposedMethods personTypeInfo ∧
    "getDescription" ∈ jsExposedMethods personTypeInfo := by
  refine ⟨rfl, by decide, rfl, by decide, by decide⟩

/-- **C6, amended.** In the Qt/quickjs `ObjectWrapper` generator a method
named `get<Suffix>`/`set<Suffix>`/`is<Suffix>` (nonempty suffix) is
excluded from the exposed methods exactly when lowercasing the suffix's
first character yields the name of an existing member; in the python and
nodejs generators, every method whose name merely starts with `get`,
`set` or `is` is excluded unconditionally, whether or not any matching
member exists. -/
theorem c6_accessor_exclusion_by_generator {C : Type} (ti : TypeInfo C)
    (n suf : String) :
    (n ∈ jsExposedMethods ti ↔
      n ∈ ti.getMethodNames ∧ IsSimpleGetterSetter n ti = false) ∧
    (n ∈ pyExposedMethods ti ↔
      n ∈ ti.getMethodNames ∧ is_getter_setter_method n = false) ∧
    (suf ≠ "" →
      IsSimpleGetterSetter ("get" ++ suf) ti
        = (ti.getMember (lowerFirst suf)).isSome ∧
      IsSimpleGetterSetter ("set" ++ suf) ti
        = (ti.getMember (lowerFirst suf)).isSome ∧
      IsSimpleGetterSetter ("is" ++ suf) ti
        = (ti.getMember (lowerFirst suf)).isSome) ∧
    (is_getter_setter_method ("get" ++ suf) = true ∧
      is_getter_setter_method ("set" ++ suf) = true ∧
      is_getter_setter_method ("is" ++ suf) = true) := by
  refine ⟨mem_jsExposedMethods ti n, mem_pyExposedMethods ti n,
    fun h => ⟨IsSimpleGetterSetter_get_append ti suf h,
      IsSimpleGetterSetter_set_append ti suf h,
      IsSimpleGetterSetter_is_append ti suf h⟩, ?_, ?_, ?_⟩
  · unfold is_getter_setter_method
    rw [strStartsWith_of_append]
    rfl
  · unfold is_getter_setter_method
    rw [strStartsWith_of_append]
    simp
  · unfold is_getter_setter_method
    rw [strStartsWith_of_append]
    simp

/-- **C6, amended, witness.**  `Person` with the names of the spec's own
test case: `getAge` against the existing member `age` is recognized by
the js heuristic; against `Person` the lookup succeeds. -/
theorem c6_accessor_exclusion_by_generator_witness :
    IsSimpleGetterSetter ("get" ++ "Age") personTypeInfo
      = (personTypeInfo.getMember (lowerFirst "Age")).isSome :=
  (((c6_accessor_exclusion_by_generator personTypeInfo "getAge"
    "Age").2.2.1) (by decide)).1

/-- **C7.** For a catalogue built by a registration pass from empty (as
every `registerIntrospection` chain does), the member- and method-name
enumerations contain exactly the registered names with no duplicates —
the maps are keyed by name — and registering a descriptor under an
already-used name replaces the previous descriptor: after `addMember`
(resp. `addMethod`), lookup of that name yields the newly added
descriptor, whatever was there before. -/
theorem c7_enumerations_exact_and_last_registration_wins {C : Type}
    (cn : String) (ms : List (MemberInfo C)) (fs : List (MethodInfo C)) :
    ((registerMethods (registerMembers (TypeInfo.mk cn [] []) ms)
        fs).getMemberNames.Nodup ∧
      ∀ n, n ∈ (registerMethods (registerMembers (TypeInfo.mk cn [] []) ms)
        fs).getMemberNames ↔ n ∈ ms.map MemberInfo.name) ∧
    ((registerMethods (registerMembers (TypeInfo.mk cn [] []) ms)
        fs).getMethodNames.Nodup ∧
      ∀ n, n ∈ (registerMethods (registerMembers (TypeInfo.mk cn [] []) ms)
        fs).getMethodNames ↔ n ∈ fs.map MethodInfo.name) ∧
    (∀ (ti : TypeInfo C) (m : MemberInfo C),
      (ti.addMember m).getMember m.name = some m) ∧
    (∀ (ti : TypeInfo C) (f : MethodInfo C),
      (ti.addMethod f).getMethod f.name = some f) := by
  have hmemnames : (registerMethods (registerMembers (TypeInfo.mk cn [] []) ms)
      fs).getMemberNames = (registerMembers (TypeInfo.mk cn [] []) ms).getMemberNames := by
    unfold TypeInfo.getMemberNames
    rw [registerMethods_members]
  refine ⟨⟨?_, ?_⟩, ⟨?_, ?_⟩, ?_, ?_⟩
  · rw [hmemnames]
    exact nodup_registerMembers_names ms _ (by simp [TypeInfo.getMemberNames])
  · intro n
    rw [hmemnames, mem_registerMembers_names]
    simp [TypeInfo.getMemberNames]
  · refine nodup_registerMethods_names fs _ ?_
    unfold TypeInfo.getMethodNames
    rw [registerMembers_methods]
    simp
  · intro n
    rw [mem_registerMethods_names]
    have hnil : (registerMembers (TypeInfo.mk cn [] []) ms).getMethodNames = [] := by
      unfold TypeInfo.getMethodNames
      rw [registerMembers_methods]
      rfl
    simp [hnil]
  · intro ti m
    exact mapFind_mapInsert_self m.name m ti.members
  · intro ti f
    exact mapFind_mapInsert_self f.name f ti.methods

/-- **C9.** A successful typed set-by-name through a synthesized setter
writes only through its own pointer-to-member; every other registered
member — any member read through a pointer disjoint from the written one,
which distinct C++ data members always are — reads the same value after
the call as before. -/
theorem c9_set_leaves_other_members_unchanged {C : Type} (t t' : CppType)
    (name name' : String) (ptr : MemberPtr C t) (ptr' : MemberPtr C t')
    (hdisjoint : ∀ o x, ptr'.get (ptr.set o x) = ptr'.get o)
    (ti : TypeInfo C)
    (hm : ti.getMember name = some (synthMember name t ptr))
    (hm' : ti.getMember name' = some (synthMember name' t' ptr'))
    (obj obj' : C) (v : DynValue)
    (hset : setMemberValue ti obj name v = .ok obj') :
    getMemberValue ti obj' name' = getMemberValue ti obj name' := by
  unfold setMemberValue at hset
  rw [hm] at hset
  have hset' : (match anyCastE t v with
      | .ok x => (Except.ok (ptr.set obj x) : Except IntroErr C)
      | .error e => .error e) = .ok obj' := hset
  cases hcast : anyCastE t v with
  | error e =>
    rw [hcast] at hset'
    simp at hset'
  | ok x =>
    rw [hcast] at hset'
    simp at hset'
    subst hset'
    simp [getMemberValue, hm', synthMember, hdisjoint]

/-- **C9, witness.**  Setting `Point.x` leaves `Point.y` as it was. -/
theorem c9_set_leaves_other_members_unchanged_witness :
    getMemberValue pointTypeInfo ⟨5, 2⟩ "y" =
      getMemberValue pointTypeInfo ⟨1, 2⟩ "y" :=
  c9_set_leaves_other_members_unchanged .tInt .tInt "x" "y"
    Point.xPtr Point.yPtr (fun _ _ => rfl) pointTypeInfo rfl rfl
    ⟨1, 2⟩ ⟨5, 2⟩ (.int 5) rfl

/-- **C10.** `hasMember` is true exactly when get-by-name does not fail
with NotFound (a found member's getter is total, so the get succeeds),
and — for any catalogue whose invokers never fabricate a NotFound error
themselves, as no synthesized invoker does — `hasMethod` is true exactly
when call-by-name does not fail with NotFound: all four entry points go
through the same `getMember`/`getMethod` lookup. -/
theorem c10_existence_predicates_match_lookups {C : Type} (ti : TypeInfo C)
    (obj : C) (name : String) (args : List DynValue)
    (hinv : ∀ mi, ti.getMethod name = some mi →
      ∀ msg, mi.invoker obj args ≠ .error (.notFound msg)) :
    (hasMember ti name = true ↔
      ¬ ∃ msg, getMemberValue ti obj name = .error (.notFound msg)) ∧
    (hasMethod ti name = true ↔
      ¬ ∃ msg, callMethod ti obj name args = .error (.notFound msg)) := by
  constructor
  · constructor
    · intro h ⟨msg, hmsg⟩
      unfold hasMember at h
      unfold getMemberValue at hmsg
      cases hlook : ti.getMember name with
      | none => rw [hlook] at h; simp at h
      | some m => rw [hlook] at hmsg; simp at hmsg
    · intro h
      unfold hasMember
      cases hlook : ti.getMember name with
      | none =>
        exfalso
        exact h ⟨"Member '" ++ name ++ "' not found", by
          unfold getMemberValue
          rw [hlook]⟩
      | some m => rfl
  · constructor
    · intro h ⟨msg, hmsg⟩
      unfold hasMethod at h
      unfold callMethod at hmsg
      cases hlook : ti.getMethod name with
      | none => rw [hlook] at h; simp at h
      | some mi =>
        rw [hlook] at hmsg
        exact hinv mi hlook msg hmsg
    · intro h
      unfold hasMethod
      cases hlook : ti.getMethod name with
      | none =>
        exfalso
        exact h ⟨"Method '" ++ name ++ "' not found", by
          unfold callMethod
          rw [hlook]⟩
      | some mi => rfl

/-- **C10, witness.**  `Person` and the name `setAge`, which is both a
registered method (so `hasMethod` is true and the call does not report
NotFound) and not a registered member (so `hasMember` is false and the
get fails with NotFound). -/
theorem c10_existence_predicates_match_lookups_witness :
    (hasMember personTypeInfo "setAge" = true ↔
      ¬ ∃ msg, getMemberValue personTypeInfo ⟨"Alice", 30, 165/100⟩ "setAge"
        = .error (.notFound msg)) ∧
    (hasMethod personTypeInfo "setAge" = true ↔
      ¬ ∃ msg, callMethod personTypeInfo ⟨"Alice", 30, 165/100⟩ "setAge" []
        = .error (.notFound msg)) :=
  c10_existence_predicates_match_lookups personTypeInfo
    ⟨"Alice", 30, 165/100⟩ "setAge" []
    (fun mi hmi msg => by
      cases hmi
      simp [synthMethod1, invoker1])

/-- **C8, counterexample.** The claim says an unhandled type tag fails
with UnsupportedType in both conversion directions.  With the default
registry (custom converters only for the vector tags) and the tag
`Person` — no custom converter, not a built-in primitive —
native-to-script (`convert_to_js`, js/JavascriptBindingGenerator.cxx
line 43) silently returns `env.Undefined()` instead of failing; only
script-to-native (`convert_to_cpp`, line 69) raises the
"Unsupported type" error. -/
theorem c8_counterexample_to_js_silently_undefined :
    registryInstance.convert_to_js (.int 7) "Person" = .ok .undefined ∧
    registryInstance.convert_to_cpp (.jsNumber 1) "Person"
      = .error (.unsupportedType "Person") := by
  refine ⟨rfl, rfl⟩

/-- **C8, amended.** Both directions consult the custom converter
registry first; a tag with no custom converter falls back to the
built-in primitive conversion table (string, int, double, float, bool),
shown below tag by tag in both directions.  When neither applies,
script-to-native fails with UnsupportedType, but native-to-script
silently yields Undefined instead of failing. -/
theorem c8_conversion_lookup_order (reg : TypeConverterRegistry)
    (v : DynValue) (jsv : JsValue) (tag : String) (s : String) (i : Int)
    (q : Rat) (b : Bool) :
    (∀ conv, mapFind tag reg.cpp_to_js_converters = some conv →
      v.hasValue = true → tag ≠ "void" →
      reg.convert_to_js v tag = conv v) ∧
    (∀ conv, mapFind tag reg.js_to_cpp_converters = some conv →
      reg.convert_to_cpp jsv tag = conv jsv) ∧
    (mapFind "string" reg.js_to_cpp_converters = none →
      reg.convert_to_cpp (.jsString s) "string" = .ok (.str s)) ∧
    (mapFind "int" reg.js_to_cpp_converters = none →
      reg.convert_to_cpp (.jsNumber q) "int" = .ok (.int (jsToInt32 q))) ∧
    (mapFind "double" reg.js_to_cpp_converters = none →
      reg.convert_to_cpp (.jsNumber q) "double" = .ok (.double q)) ∧
    (mapFind "float" reg.js_to_cpp_converters = none →
      reg.convert_to_cpp (.jsNumber q) "float" = .ok (.val .tFloat q)) ∧
    (mapFind "bool" reg.js_to_cpp_converters = none →
      reg.convert_to_cpp (.jsBool b) "bool" = .ok (.bool b)) ∧
    (mapFind "string" reg.cpp_to_js_converters = none →
      reg.convert_to_js (.str s) "string" = .ok (.jsString s)) ∧
    (mapFind "int" reg.cpp_to_js_converters = none →
      reg.convert_to_js (.int i) "int" = .ok (.jsNumber i)) ∧
    (mapFind "double" reg.cpp_to_js_converters = none →
      reg.convert_to_js (.double q) "double" = .ok (.jsNumber q)) ∧
    (mapFind "float" reg.cpp_to_js_converters = none →
      reg.convert_to_js (.val .tFloat q) "float" = .ok (.jsNumber q)) ∧
    (mapFind "bool" reg.cpp_to_js_converters = none →
      reg.convert_to_js (.bool b) "bool" = .ok (.jsBool b)) ∧
    (mapFind tag reg.cpp_to_js_converters = none →
      tag ∉ (["void", "string", "int", "double", "float", "bool"] :
        List String) →
      reg.convert_to_js v tag = .ok .undefined) ∧
    (mapFind tag reg.js_to_cpp_converters = none →
      tag ∉ (["string", "int", "double", "float", "bool"] : List String) →
      reg.convert_to_cpp jsv tag = .error (.unsupportedType tag)) := by
  refine ⟨?_, ?_, ?_, ?_, ?_, ?_, ?_, ?_, ?_, ?_, ?_, ?_, ?_, ?_⟩
  · intro conv hconv hv hvoid
    unfold TypeConverterRegistry.convert_to_js
    rw [hv, hconv]
    simp [hvoid]
  · intro conv hconv
    unfold TypeConverterRegistry.convert_to_cpp
    rw [hconv]
  · intro hnone
    unfold TypeConverterRegistry.convert_to_cpp
    rw [hnone]
    exact rfl
  · intro hnone
    unfold TypeConverterRegistry.convert_to_cpp
    rw [hnone]
    exact rfl
  · intro hnone
    unfold TypeConverterRegistry.convert_to_cpp
    rw [hnone]
    exact rfl
  · intro hnone
    unfold TypeConverterRegistry.convert_to_cpp
    rw [hnone]
    exact rfl
  · intro hnone
    unfold TypeConverterRegistry.convert_to_cpp
    rw [hnone]
    exact rfl
  · intro hnone
    unfold TypeConverterRegistry.convert_to_js
    rw [hnone]
    exact rfl
  · intro hnone
    unfold TypeConverterRegistry.convert_to_js
    rw [hnone]
    exact rfl
  · intro hnone
    unfold TypeConverterRegistry.convert_to_js
    rw [hnone]
    exact rfl
  · intro hnone
    unfold TypeConverterRegistry.convert_to_js
    rw [hnone]
    exact rfl
  · intro hnone
    unfold TypeConverterRegistry.convert_to_js
    rw [hnone]
    exact rfl
  · intro hnone htag
    simp only [List.mem_cons, List.mem_singleton, not_or] at htag
    obtain ⟨h0, h1, h2, h3, h4, h5⟩ := htag
    unfold TypeConverterRegistry.convert_to_js
    cases hv : v.hasValue with
    | false => simp
    | true => simp [hnone, h0, h1, h2, h3, h4, h5]
  · intro hnone htag
    simp only [List.mem_cons, List.mem_singleton, not_or] at htag
    obtain ⟨h1, h2, h3, h4, h5⟩ := htag
    unfold TypeConverterRegistry.convert_to_cpp
    rw [hnone]
    simp [h1, h2, h3, h4, h5]

/-- **C8, amended, witness.** The default registry: the registered
custom tag `vector<int>` takes precedence in the native-to-script
direction, and the tag `int` — which has no custom converter — converts
through the built-in table in both directions. -/
theorem c8_conversion_lookup_order_witness :
    registryInstance.convert_to_js (.val .tVecInt [1, 2]) "vector<int>"
      = vecIntToJs (.val .tVecInt [1, 2]) ∧
    registryInstance.convert_to_cpp (.jsNumber 5) "int" = .ok (.int 5) ∧
    registryInstance.convert_to_js (.int 5) "int" = .ok (.jsNumber 5) :=
  ⟨(c8_conversion_lookup_order registryInstance (.val .tVecInt [1, 2])
      .undefined "vector<int>" "" 0 0 false).1 vecIntToJs rfl rfl (by decide),
    (c8_conversion_lookup_order registryInstance .empty .undefined "x" ""
      0 5 false).2.2.2.1 rfl,
    (c8_conversion_lookup_order registryInstance .empty .undefined "x" ""
      5 0 false).2.2.2.2.2.2.2.2.1 rfl⟩

end Introspection

